import Mathlib

/-!
# Verification of the pyserum SPL-token instruction codec

A shallow embedding of `spl/token/instructions.py` and
`solana/token_program.py` (the instruction encoders/decoders for the
SPL token program), with theorems settling the specification's claims
about round-trips, account-reference conventions, discriminants and
error behaviour.

Machine bytes are modelled as `Nat` (well-formedness `< 256` stated
where it matters), byte buffers as `List Nat`, public keys as their
32-byte representation `List Nat`, and fallible Python functions
(those that can raise) as `Except`-valued Lean functions.
-/

/-- A 32-byte public key, modelled by its byte representation
(`bytes(pubkey)` in the source). -/
abbrev PublicKey := List Nat

/-- `PublicKey(0)`: the all-zero 32-byte key used by the source as the
placeholder for an absent optional authority. -/
def ZERO_KEY : PublicKey := List.replicate 32 0

/-- Modelled from the spec: `SYSVAR_RENT_PUBKEY` (solana/sysvar.py is
absent from the sources); the spec only requires it to be a fixed,
distinguished "rent sysvar" address appended read-only. -/
def SYSVAR_RENT_PUBKEY : PublicKey := 6 :: List.replicate 31 7

/-- An account reference: address plus is-signer / is-writable flags
(`AccountMeta` in solana/transaction.py, modelled from the spec's
Account Reference data model: the module is absent from the sources). -/
structure AccountMeta where
  pubkey : PublicKey
  is_signer : Bool
  is_writable : Bool
deriving DecidableEq, Repr

/-- A built instruction: ordered account references, program id and the
data buffer (`TransactionInstruction` in solana/transaction.py, modelled
from the spec: the module is absent from the sources). -/
structure TransactionInstruction where
  keys : List AccountMeta
  program_id : PublicKey
  data : List Nat
deriving DecidableEq, Repr

/-- The error taxonomy of the codec (spec §7); in the Python source all
of these are raised as `ValueError` / `NotImplementedError` values, with
the diagnostic payloads modelled here as constructor arguments. -/
inductive TokenError where
  /-- Too few account references: carries found and expected counts. -/
  | invalidAccountCount (found expected : Nat)
  /-- Discriminant mismatch: carries expected and actual discriminants. -/
  | wrongInstructionType (expected actual : Nat)
  /-- Data buffer shorter than the kind's fixed field width. -/
  | truncatedInstruction
  /-- Leading byte of the data buffer names no known operation kind. -/
  | unknownInstruction
  /-- A parsed argument record did not match the validated kind; this
  never happens (see `parse_shape_*` lemmas), it makes decoders total. -/
  | shapeMismatch
  /-- An account index used after key-count validation was out of range;
  never happens, it makes decoders total. -/
  | indexError
  /-- `NotImplementedError(msg)`: the operation's logic is absent from
  this build. -/
  | notImplementedError (msg : String)
deriving DecidableEq, Repr

deriving instance DecidableEq for Except

/-- The closed enumeration of the 16 operation kinds
(`InstructionType` in spl/token/_layouts.py, whose discriminants appear
verbatim in solana/token_program.py lines 12-27). -/
inductive InstructionType where
  | InitializeMint
  | InitializeAccount
  | InitializeMultisig
  | Transfer
  | Approve
  | Revoke
  | SetAuthority
  | MintTo
  | Burn
  | CloseAccount
  | FreezeAccount
  | ThawAccount
  | Transfer2
  | Approve2
  | MintTo2
  | Burn2
deriving DecidableEq, Repr

/-- Each kind's fixed discriminant (solana/token_program.py lines 12-27). -/
def InstructionType.idx : InstructionType → Nat
  | .InitializeMint => 0
  | .InitializeAccount => 1
  | .InitializeMultisig => 2
  | .Transfer => 3
  | .Approve => 4
  | .Revoke => 5
  | .SetAuthority => 6
  | .MintTo => 7
  | .Burn => 8
  | .CloseAccount => 9
  | .FreezeAccount => 10
  | .ThawAccount => 11
  | .Transfer2 => 12
  | .Approve2 => 13
  | .MintTo2 => 14
  | .Burn2 => 15

/-- Inverse of `InstructionType.idx` on the valid range 0-15. -/
def instructionTypeOfIdx : Nat → Option InstructionType
  | 0 => some .InitializeMint
  | 1 => some .InitializeAccount
  | 2 => some .InitializeMultisig
  | 3 => some .Transfer
  | 4 => some .Approve
  | 5 => some .Revoke
  | 6 => some .SetAuthority
  | 7 => some .MintTo
  | 8 => some .Burn
  | 9 => some .CloseAccount
  | 10 => some .FreezeAccount
  | 11 => some .ThawAccount
  | 12 => some .Transfer2
  | 13 => some .Approve2
  | 14 => some .MintTo2
  | 15 => some .Burn2
  | _ => none

/-- Little-endian value of a byte list (each entry one byte). -/
def leValue : List Nat → Nat
  | [] => 0
  | b :: rest => b + 256 * leValue rest

/-- Little-endian 4-byte encoding of an unsigned 32-bit integer. -/
def u32le (n : Nat) : List Nat :=
  [n % 256, n / 256 % 256, n / 256 ^ 2 % 256, n / 256 ^ 3 % 256]

/-- Little-endian 8-byte encoding of an unsigned 64-bit integer. -/
def u64le (n : Nat) : List Nat :=
  [n % 256, n / 256 % 256, n / 256 ^ 2 % 256, n / 256 ^ 3 % 256,
   n / 256 ^ 4 % 256, n / 256 ^ 5 % 256, n / 256 ^ 6 % 256, n / 256 ^ 7 % 256]

/-- The per-kind argument records carried after the discriminant
(the union of the field layouts of spl/token/_layouts.py). -/
inductive InstructionArgs where
  /-- InitializeMint: decimals, mint authority key bytes, 4-byte option
  flag, freeze authority key bytes. -/
  | initializeMint (decimals : Nat) (mint_authority : List Nat)
      (freeze_authority_option : Nat) (freeze_authority : List Nat)
  /-- Kinds with no fields beyond the discriminant. -/
  | empty
  /-- InitializeMultisig: the required-signer count `m`. -/
  | initializeMultisig (m : Nat)
  /-- Transfer / Approve / MintTo / Burn: an 8-byte amount. -/
  | amount (amount : Nat)
  /-- SetAuthority: 4-byte authority-type enum plus a 32-byte key. -/
  | setAuthority (authority_type : Nat) (new_authority : List Nat)
  /-- Checked variants: 8-byte amount plus 1-byte decimals. -/
  | amountDecimals (amount : Nat) (decimals : Nat)
deriving DecidableEq, Repr

/-- The result of parsing an instruction data buffer: the discriminant's
kind and the argument record that followed it. -/
structure ParsedData where
  instruction_type : InstructionType
  args : InstructionArgs
deriving DecidableEq, Repr

/-- Modelled from the spec: the serialisation half of
`INSTRUCTIONS_LAYOUT.build` (spl/token/_layouts.py is absent from the
sources). Spec §3/§4.2: one discriminant byte, then the kind's fields,
little-endian for multi-byte integers, 32 bytes per public key, and a
4-byte option flag before an always-present 32-byte optional key. -/
def buildArgs : InstructionArgs → List Nat
  | .initializeMint d ma opt fa => d % 256 :: ma ++ u32le opt ++ fa
  | .empty => []
  | .initializeMultisig m => [m % 256]
  | .amount a => u64le a
  | .setAuthority t na => u32le t ++ na
  | .amountDecimals a d => u64le a ++ [d % 256]

/-- Modelled from the spec: `INSTRUCTIONS_LAYOUT.build` on an
instruction-type / args pair (spl/token/_layouts.py is absent from the
sources): the discriminant byte followed by the serialised fields. -/
def layoutBuild (ty : InstructionType) (args : InstructionArgs) : List Nat :=
  ty.idx :: buildArgs args

/-- Parse the argument record of one kind from the bytes following the
discriminant; extra trailing bytes are ignored, a buffer shorter than
the layout's fixed width is a `truncatedInstruction` (spec §4.3 step 3). -/
def parseArgs (ty : InstructionType) (rest : List Nat) :
    Except TokenError InstructionArgs :=
  match ty with
  | .InitializeMint =>
    if rest.length < 69 then .error .truncatedInstruction
    else .ok (.initializeMint (rest.headI) ((rest.drop 1).take 32)
      (leValue ((rest.drop 33).take 4)) ((rest.drop 37).take 32))
  | .InitializeAccount => .ok .empty
  | .InitializeMultisig =>
    if rest.length < 1 then .error .truncatedInstruction
    else .ok (.initializeMultisig rest.headI)
  | .Transfer =>
    if rest.length < 8 then .error .truncatedInstruction
    else .ok (.amount (leValue (rest.take 8)))
  | .Approve =>
    if rest.length < 8 then .error .truncatedInstruction
    else .ok (.amount (leValue (rest.take 8)))
  | .Revoke => .ok .empty
  | .SetAuthority =>
    if rest.length < 36 then .error .truncatedInstruction
    else .ok (.setAuthority (leValue (rest.take 4)) ((rest.drop 4).take 32))
  | .MintTo =>
    if rest.length < 8 then .error .truncatedInstruction
    else .ok (.amount (leValue (rest.take 8)))
  | .Burn =>
    if rest.length < 8 then .error .truncatedInstruction
    else .ok (.amount (leValue (rest.take 8)))
  | .CloseAccount => .ok .empty
  | .FreezeAccount => .ok .empty
  | .ThawAccount => .ok .empty
  | .Transfer2 =>
    if rest.length < 9 then .error .truncatedInstruction
    else .ok (.amountDecimals (leValue (rest.take 8)) ((rest.drop 8).headI))
  | .Approve2 =>
    if rest.length < 9 then .error .truncatedInstruction
    else .ok (.amountDecimals (leValue (rest.take 8)) ((rest.drop 8).headI))
  | .MintTo2 =>
    if rest.length < 9 then .error .truncatedInstruction
    else .ok (.amountDecimals (leValue (rest.take 8)) ((rest.drop 8).headI))
  | .Burn2 =>
    if rest.length < 9 then .error .truncatedInstruction
    else .ok (.amountDecimals (leValue (rest.take 8)) ((rest.drop 8).headI))

/-- Modelled from the spec: `INSTRUCTIONS_LAYOUT.parse`
(spl/token/_layouts.py is absent from the sources). Spec §3: the single
byte at offset 0 selects the kind; the following bytes are parsed per
that kind's fixed field layout. -/
def layoutParse (data : List Nat) : Except TokenError ParsedData :=
  match data with
  | [] => .error .truncatedInstruction
  | b :: rest =>
    match instructionTypeOfIdx b with
    | none => .error .unknownInstruction
    | some ty => do
      let args ← parseArgs ty rest
      .ok ⟨ty, args⟩

/-- Modelled from the spec: `validate_instruction_keys`
(solana/utils/validate.py is absent from the sources). Spec §4.3 step 2:
fewer account references than the kind's minimum fails with
`InvalidAccountCount`. -/
def validate_instruction_keys (ix : TransactionInstruction)
    (expected : Nat) : Except TokenError Unit :=
  if ix.keys.length < expected then
    .error (.invalidAccountCount ix.keys.length expected)
  else .ok ()

/-- Modelled from the spec: `validate_instruction_type`
(solana/utils/validate.py is absent from the sources). Spec §4.3 step 1
and §7: a discriminant mismatch fails with `WrongInstructionType`
carrying both expected and actual discriminants. -/
def validate_instruction_type (parsed : ParsedData)
    (expected : InstructionType) : Except TokenError Unit :=
  if parsed.instruction_type = expected then .ok ()
  else .error (.wrongInstructionType expected.idx parsed.instruction_type.idx)

/-- The pubkey of the `i`-th account reference (`instruction.keys[i].pubkey`);
the `[]` default is unreachable, every use is guarded by key-count
validation. -/
def nthKey (ix : TransactionInstruction) (i : Nat) : PublicKey :=
  ((ix.keys[i]?).map AccountMeta.pubkey).getD []

/-- Python's negative slice `xs[-m:]` on lists: the last `m` elements,
except that `m = 0` yields the whole list (`xs[-0:] == xs[0:]`). -/
def negSlice {α : Type} (xs : List α) (m : Nat) : List α :=
  if m = 0 then xs else xs.drop (xs.length - m)

namespace SplToken

/-! ## spl/token/instructions.py: parameter records -/

/-- Initialize token mint transaction params. -/
structure InitializeMintParams where
  decimals : Nat
  program_id : PublicKey
  mint : PublicKey
  mint_authority : PublicKey
  freeze_authority : Option PublicKey := none
deriving DecidableEq, Repr

/-- Initialize token account transaction params. -/
structure InitializeAccountParams where
  program_id : PublicKey
  account : PublicKey
  mint : PublicKey
  owner : PublicKey
deriving DecidableEq, Repr

/-- Initialize multisig token account transaction params. -/
structure InitializeMultisigParams where
  program_id : PublicKey
  multisig : PublicKey
  signers : List PublicKey
  m : Nat
deriving DecidableEq, Repr

/-- Transfer token transaction params. -/
structure TransferParams where
  program_id : PublicKey
  source : PublicKey
  destination : PublicKey
  authority : PublicKey
  signers : List PublicKey
  amount : Nat
deriving DecidableEq, Repr

/-- Approve token transaction params. -/
structure ApproveParams where
  program_id : PublicKey
  source : PublicKey
  delegate : PublicKey
  owner : PublicKey
  signers : List PublicKey
  amount : Nat
deriving DecidableEq, Repr

/-- Revoke token transaction params. -/
structure RevokeParams where
  program_id : PublicKey
  source : PublicKey
  owner : PublicKey
  signers : List PublicKey
deriving DecidableEq, Repr

/-- The authority type enum for SetAuthority instructions. -/
inductive AuthorityType where
  | MintTokens
  | FreezeAccount
  | AccountOwner
  | CloseAccount
deriving DecidableEq, Repr

/-- Set token authority transaction params. -/
structure SetAuthorityParams where
  authority : AuthorityType
  new_authority : Option PublicKey := none
deriving DecidableEq, Repr

/-- Mint token transaction params. -/
structure MintToParams where
  program_id : PublicKey
  mint : PublicKey
  account : PublicKey
  owner : PublicKey
  signers : List PublicKey
  amount : Nat
deriving DecidableEq, Repr

/-- Burn token transaction params. -/
structure BurnParams where
  program_id : PublicKey
  account : PublicKey
  mint : PublicKey
  authority : PublicKey
  signers : List PublicKey
  amount : Nat
deriving DecidableEq, Repr

/-- Close token account transaction params. -/
structure CloseAccountParams where
  program_id : PublicKey
  account : PublicKey
  destination : PublicKey
  owner : PublicKey
  signers : List PublicKey
deriving DecidableEq, Repr

/-- Freeze token account transaction params. -/
structure FreezeAccountParams where
  program_id : PublicKey
  account : PublicKey
  mint : PublicKey
  owner : PublicKey
  signers : List PublicKey
deriving DecidableEq, Repr

/-- Thaw token account transaction params. -/
structure ThawAccountParams where
  program_id : PublicKey
  account : PublicKey
  mint : PublicKey
  owner : PublicKey
  signers : List PublicKey
deriving DecidableEq, Repr

/-- Transfer2 (checked transfer) token transaction params. -/
structure Transfer2Params where
  program_id : PublicKey
  mint : PublicKey
  source : PublicKey
  destination : PublicKey
  authority : PublicKey
  signers : List PublicKey
  amount : Nat
  decimal : Nat
deriving DecidableEq, Repr

/-- Approve2 (checked approve) token transaction params. -/
structure Approve2Params where
  program_id : PublicKey
  mint : PublicKey
  source : PublicKey
  delegate : PublicKey
  owner : PublicKey
  signers : List PublicKey
  amount : Nat
  decimal : Nat
deriving DecidableEq, Repr

/-- MintTo2 (checked mint) token transaction params. -/
structure MintTo2Params where
  program_id : PublicKey
  mint : PublicKey
  account : PublicKey
  owner : PublicKey
  signers : List PublicKey
  amount : Nat
  decimal : Nat
deriving DecidableEq, Repr

/-- Burn2 (checked burn) token transaction params. -/
structure Burn2Params where
  program_id : PublicKey
  mint : PublicKey
  account : PublicKey
  owner : PublicKey
  signers : List PublicKey
  amount : Nat
  decimal : Nat
deriving DecidableEq, Repr

/-! ## spl/token/instructions.py: decoders -/

/-- `decode_initialize_mint` (instructions.py lines 283-298). -/
def decode_initialize_mint (ix : TransactionInstruction) :
    Except TokenError InitializeMintParams := do
  let _ ← validate_instruction_keys ix 2
  let parsed ← layoutParse ix.data
  let _ ← validate_instruction_type parsed .InitializeMint
  match parsed.args with
  | .initializeMint d ma opt fa =>
    .ok { decimals := d, program_id := ix.program_id, mint := nthKey ix 0,
          mint_authority := ma,
          freeze_authority := if opt ≠ 0 then some fa else none }
  | _ => .error .shapeMismatch

/-- `decode_initialize_account` (instructions.py lines 301-313). -/
def decode_initialize_account (ix : TransactionInstruction) :
    Except TokenError InitializeAccountParams := do
  let _ ← validate_instruction_keys ix 4
  let parsed ← layoutParse ix.data
  let _ ← validate_instruction_type parsed .InitializeAccount
  .ok { program_id := ix.program_id, account := nthKey ix 0,
        mint := nthKey ix 1, owner := nthKey ix 2 }

/-- `decode_initialize_multisig` (instructions.py lines 316-328): note
that the data is parsed and the type validated before the key-count
check, whose minimum is `2 + m`; the trailing `keys[-m:]` slice uses
Python semantics (`negSlice`). -/
def decode_initialize_multisig (ix : TransactionInstruction) :
    Except TokenError InitializeMultisigParams := do
  let parsed ← layoutParse ix.data
  let _ ← validate_instruction_type parsed .InitializeMultisig
  match parsed.args with
  | .initializeMultisig num_signers => do
    let _ ← validate_instruction_keys ix (2 + num_signers)
    .ok { program_id := ix.program_id, multisig := nthKey ix 0,
          signers := (negSlice ix.keys num_signers).map AccountMeta.pubkey,
          m := num_signers }
  | _ => .error .shapeMismatch

/-- `decode_transfer` (instructions.py lines 331-345). -/
def decode_transfer (ix : TransactionInstruction) :
    Except TokenError TransferParams := do
  let _ ← validate_instruction_keys ix 3
  let parsed ← layoutParse ix.data
  let _ ← validate_instruction_type parsed .Transfer
  match parsed.args with
  | .amount a =>
    .ok { program_id := ix.program_id, source := nthKey ix 0,
          destination := nthKey ix 1, authority := nthKey ix 2,
          signers := (ix.keys.drop 3).map AccountMeta.pubkey, amount := a }
  | _ => .error .shapeMismatch

/-- `decode_approve` (instructions.py lines 348-350): not implemented. -/
def decode_approve (_ : TransactionInstruction) :
    Except TokenError ApproveParams :=
  .error (.notImplementedError "decode_token_approve not implemented")

/-- `decode_revoke` (instructions.py lines 353-355): not implemented. -/
def decode_revoke (_ : TransactionInstruction) :
    Except TokenError RevokeParams :=
  .error (.notImplementedError "decode_token_revoke not implemented")

/-- `decode_set_authority` (instructions.py lines 358-360): not
implemented. -/
def decode_set_authority (_ : TransactionInstruction) :
    Except TokenError SetAuthorityParams :=
  .error (.notImplementedError "decode_set_authority not implemented")

/-- `decode_mint_to` (instructions.py lines 363-365): not implemented. -/
def decode_mint_to (_ : TransactionInstruction) :
    Except TokenError MintToParams :=
  .error (.notImplementedError "decode_mint_to not implemented")

/-- `decode_burn` (instructions.py lines 368-370): not implemented. -/
def decode_burn (_ : TransactionInstruction) :
    Except TokenError BurnParams :=
  .error (.notImplementedError "decode_burn not implemented")

/-- `decode_close_account` (instructions.py lines 373-386). -/
def decode_close_account (ix : TransactionInstruction) :
    Except TokenError CloseAccountParams := do
  let _ ← validate_instruction_keys ix 3
  let parsed ← layoutParse ix.data
  let _ ← validate_instruction_type parsed .CloseAccount
  .ok { program_id := ix.program_id, account := nthKey ix 0,
        destination := nthKey ix 1, owner := nthKey ix 2,
        signers := (ix.keys.drop 3).map AccountMeta.pubkey }

/-- `decode_thaw_account` (instructions.py lines 389-391): not
implemented. -/
def decode_thaw_account (_ : TransactionInstruction) :
    Except TokenError ThawAccountParams :=
  .error (.notImplementedError "decode_thaw_account not implemented")

/-- `decode_transfer2` (instructions.py lines 394-396): not implemented. -/
def decode_transfer2 (_ : TransactionInstruction) :
    Except TokenError Transfer2Params :=
  .error (.notImplementedError "decode_transfer2 not implemented")

/-- `decode_approve2` (instructions.py lines 399-401): not implemented. -/
def decode_approve2 (_ : TransactionInstruction) :
    Except TokenError Transfer2Params :=
  .error (.notImplementedError "decode_approve2 not implemented")

/-- `decode_mint_to2` (instructions.py lines 404-406): not implemented. -/
def decode_mint_to2 (_ : TransactionInstruction) :
    Except TokenError MintTo2Params :=
  .error (.notImplementedError "decode_mint_to2 not implemented")

/-- `decode_burn2` (instructions.py lines 409-411): not implemented. -/
def decode_burn2 (_ : TransactionInstruction) :
    Except TokenError MintTo2Params :=
  .error (.notImplementedError "decode_burn2 not implemented")

/-! ## spl/token/instructions.py: encoders -/

/-- `__add_signers` (instructions.py lines 414-420), with the in-place
`keys.append` mutation rendered as returning the extended list. -/
def addSigners (keys : List AccountMeta) (owner : PublicKey)
    (signers : List PublicKey) : List AccountMeta :=
  match signers with
  | [] => keys ++ [⟨owner, true, false⟩]
  | _ => keys ++ ⟨owner, false, false⟩ ::
      signers.map (fun s => AccountMeta.mk s true false)

/-- `initialize_mint` (instructions.py lines 423-449). -/
def initialize_mint (params : InitializeMintParams) : TransactionInstruction :=
  let fo : PublicKey × Nat :=
    match params.freeze_authority with
    | some fa => (fa, 1)
    | none => (ZERO_KEY, 0)
  let data := layoutBuild .InitializeMint
    (.initializeMint params.decimals params.mint_authority fo.2 fo.1)
  { keys := [⟨params.mint, false, true⟩, ⟨SYSVAR_RENT_PUBKEY, false, false⟩],
    program_id := params.program_id, data := data }

/-- `initialize_account` (instructions.py lines 452-469). -/
def initialize_account (params : InitializeAccountParams) :
    TransactionInstruction :=
  { keys := [⟨params.account, false, true⟩, ⟨params.mint, false, false⟩,
             ⟨params.owner, false, false⟩,
             ⟨SYSVAR_RENT_PUBKEY, false, false⟩],
    program_id := params.program_id,
    data := layoutBuild .InitializeAccount .empty }

/-- `initialize_multisig` (instructions.py lines 472-487). -/
def initialize_multisig (params : InitializeMultisigParams) :
    TransactionInstruction :=
  { keys := ⟨params.multisig, false, true⟩ ::
      ⟨SYSVAR_RENT_PUBKEY, false, false⟩ ::
      params.signers.map (fun s => AccountMeta.mk s false false),
    program_id := params.program_id,
    data := layoutBuild .InitializeMultisig (.initializeMultisig params.m) }

/-- `transfer` (instructions.py lines 490-499); note the destination
reference is built with `is_writable=False`. -/
def transfer (params : TransferParams) : TransactionInstruction :=
  { keys := addSigners
      [⟨params.source, false, true⟩, ⟨params.destination, false, false⟩]
      params.authority params.signers,
    program_id := params.program_id,
    data := layoutBuild .Transfer (.amount params.amount) }

/-- `approve` (instructions.py lines 502-504): not implemented. -/
def approve (_ : ApproveParams) :
    Except TokenError TransactionInstruction :=
  .error (.notImplementedError "approve not implemented")

/-- `revoke` (instructions.py lines 507-509): not implemented. -/
def revoke (_ : RevokeParams) :
    Except TokenError TransactionInstruction :=
  .error (.notImplementedError "revoke not implemented")

/-- `set_authority` (instructions.py lines 512-514): not implemented. -/
def set_authority (_ : SetAuthorityParams) :
    Except TokenError TransactionInstruction :=
  .error (.notImplementedError "set_authority not implemented")

/-- `mint_to` (instructions.py lines 517-519): not implemented. -/
def mint_to (_ : MintToParams) :
    Except TokenError TransactionInstruction :=
  .error (.notImplementedError "mint_to not implemented")

/-- `burn` (instructions.py lines 522-524): not implemented. -/
def burn (_ : BurnParams) :
    Except TokenError TransactionInstruction :=
  .error (.notImplementedError "burn not implemented")

/-- `close_account` (instructions.py lines 527-539). -/
def close_account (params : CloseAccountParams) : TransactionInstruction :=
  { keys := addSigners
      [⟨params.account, false, true⟩, ⟨params.destination, false, true⟩]
      params.owner params.signers,
    program_id := params.program_id,
    data := layoutBuild .CloseAccount .empty }

/-- `freeze_account` (instructions.py lines 542-544): not implemented. -/
def freeze_account (_ : FreezeAccountParams) :
    Except TokenError TransactionInstruction :=
  .error (.notImplementedError "freeze_account not implemented")

/-- `thaw_account` (instructions.py lines 547-549): not implemented. -/
def thaw_account (_ : ThawAccountParams) :
    Except TokenError TransactionInstruction :=
  .error (.notImplementedError "thaw_account not implemented")

/-- `transfer2` (instructions.py lines 552-554): not implemented. -/
def transfer2 (_ : Transfer2Params) :
    Except TokenError TransactionInstruction :=
  .error (.notImplementedError "transfer2 not implemented")

/-- `approve2` (instructions.py lines 557-559): not implemented. -/
def approve2 (_ : Approve2Params) :
    Except TokenError TransactionInstruction :=
  .error (.notImplementedError "approve2 not implemented")

/-- `mint_to2` (instructions.py lines 562-564): not implemented. -/
def mint_to2 (_ : MintTo2Params) :
    Except TokenError TransactionInstruction :=
  .error (.notImplementedError "mint_to2 not implemented")

/-- `burn2` (instructions.py lines 567-569): not implemented. -/
def burn2 (_ : Burn2Params) :
    Except TokenError TransactionInstruction :=
  .error (.notImplementedError "burn2 not implemented")

end SplToken

namespace TokenProgram

/-! ## solana/token_program.py: the wire-layout registry and its lookup -/

/-- An entry of the static layout registry: a discriminant index and a
`struct`-style format string for the fields that follow it
(`InstructionLayout` in solana/instruction.py, modelled from the spec's
Wire Layout Registry: the module is absent from the sources). -/
structure InstructionLayout where
  idx : Nat
  fmt : String
deriving DecidableEq, Repr

/-- `TOKEN_INSTRUCTION_LAYOUTS` (token_program.py lines 300-317). -/
def TOKEN_INSTRUCTION_LAYOUTS : List InstructionLayout :=
  [⟨0, "B32s32s"⟩, ⟨1, ""⟩, ⟨2, "B"⟩, ⟨3, "Q"⟩, ⟨4, "Q"⟩, ⟨5, ""⟩,
   ⟨6, "I32s"⟩, ⟨7, "Q"⟩, ⟨8, "Q"⟩, ⟨9, ""⟩, ⟨10, ""⟩, ⟨11, ""⟩,
   ⟨12, "QB"⟩, ⟨13, "QB"⟩, ⟨14, "QB"⟩, ⟨15, "QB"⟩]

/-- Modelled from the spec: `from_uint8_bytes`
(solana/utils/helpers.py is absent from the sources): conversion of a
byte slice to its unsigned integer value, little-endian per the spec's
§4.2 convention for multi-byte integers. -/
def from_uint8_bytes (bs : List Nat) : Nat := leValue bs

/-- `decode_instruction_layout` (token_program.py lines 320-327): slices
the first 4 bytes of the data buffer, converts them to an integer and
uses it to index the layout registry; out-of-range raises
`ValueError("unknown transaction instruction")`. -/
def decode_instruction_layout (ix : TransactionInstruction) :
    Except TokenError InstructionLayout :=
  let type_data := ix.data.take 4
  let type_idx := from_uint8_bytes type_data
  match TOKEN_INSTRUCTION_LAYOUTS[type_idx]? with
  | some layout => .ok layout
  | none => .error .unknownInstruction

end TokenProgram

/-! ## Helper lemmas on the byte-level codec -/

theorem length_u32le (n : Nat) : (u32le n).length = 4 := by
  simp [u32le]

theorem length_u64le (n : Nat) : (u64le n).length = 8 := by
  simp [u64le]

theorem leValue_u32le (n : Nat) : leValue (u32le n) = n % 2 ^ 32 := by
  simp only [u32le, leValue]
  omega

theorem leValue_u64le (n : Nat) : leValue (u64le n) = n % 2 ^ 64 := by
  simp only [u64le, leValue]
  omega


theorem take_append_of_length {α : Type} (xs ys : List α) (n : Nat)
    (h : xs.length = n) : (xs ++ ys).take n = xs := by
  subst h; exact List.take_left xs ys

theorem drop_append_of_length {α : Type} (xs ys : List α) (n : Nat)
    (h : xs.length = n) : (xs ++ ys).drop n = ys := by
  subst h; exact List.drop_left xs ys

/-- Parsing a built InitializeMint buffer recovers the argument record
(with the one-byte and four-byte fields reduced mod their width). -/
theorem layoutParse_build_initializeMint (d opt : Nat) (ma fa : List Nat)
    (hma : ma.length = 32) (hfa : fa.length = 32) :
    layoutParse (layoutBuild .InitializeMint (.initializeMint d ma opt fa)) =
      .ok ⟨.InitializeMint, .initializeMint (d % 256) ma (opt % 2 ^ 32) fa⟩ := by
  have hrest : (buildArgs (.initializeMint d ma opt fa)) =
      d % 256 :: (ma ++ (u32le opt ++ fa)) := by
    simp [buildArgs]
  have hlen : (ma ++ (u32le opt ++ fa)).length = 68 := by
    simp [hma, hfa, length_u32le]
  simp only [layoutBuild, layoutParse, hrest, InstructionType.idx,
    instructionTypeOfIdx, parseArgs]
  rw [if_neg (by simp [hlen])]
  simp only [List.headI, List.drop_succ_cons, List.take_succ_cons, List.drop]
  rw [take_append_of_length ma (u32le opt ++ fa) 32 hma]
  have h33 : (ma ++ (u32le opt ++ fa)).drop 32 = u32le opt ++ fa :=
    drop_append_of_length ma (u32le opt ++ fa) 32 hma
  have h37 : (ma ++ (u32le opt ++ fa)).drop 36 = fa := by
    have : (ma ++ (u32le opt ++ fa)).drop 36 =
        ((ma ++ (u32le opt ++ fa)).drop 32).drop 4 := by
      rw [List.drop_drop]
    rw [this, h33, drop_append_of_length (u32le opt) fa 4 (length_u32le opt)]
  rw [h33, h37, take_append_of_length (u32le opt) fa 4 (length_u32le opt),
    leValue_u32le, List.take_of_length_le (le_of_eq hfa)]
  rfl

/-- Parsing a built InitializeMultisig buffer recovers `m % 256`. -/
theorem layoutParse_build_initializeMultisig (m : Nat) :
    layoutParse (layoutBuild .InitializeMultisig (.initializeMultisig m)) =
      .ok ⟨.InitializeMultisig, .initializeMultisig (m % 256)⟩ := rfl

/-- Parsing a built Transfer buffer recovers `amount % 2^64`. -/
theorem layoutParse_build_transfer (a : Nat) :
    layoutParse (layoutBuild .Transfer (.amount a)) =
      .ok ⟨.Transfer, .amount (a % 2 ^ 64)⟩ := by
  have h8 : ¬ (u64le a).length < 8 := by
    simp [length_u64le]
  simp only [layoutBuild, layoutParse, buildArgs, InstructionType.idx,
    instructionTypeOfIdx, parseArgs]
  rw [if_neg h8, List.take_of_length_le (le_of_eq (length_u64le a)),
    leValue_u64le]
  rfl

/-- Parsing a built InitializeAccount buffer. -/
theorem layoutParse_build_initializeAccount :
    layoutParse (layoutBuild .InitializeAccount .empty) =
      .ok ⟨.InitializeAccount, .empty⟩ := rfl

/-- Parsing a built CloseAccount buffer. -/
theorem layoutParse_build_closeAccount :
    layoutParse (layoutBuild .CloseAccount .empty) =
      .ok ⟨.CloseAccount, .empty⟩ := rfl

@[simp] theorem except_bind_ok {ε α β : Type} (a : α) (f : α → Except ε β) :
    (Except.ok a >>= f) = f a := rfl

@[simp] theorem except_bind_error {ε α β : Type} (e : ε) (f : α → Except ε β) :
    (Except.error e >>= f : Except ε β) = Except.error e := rfl

@[simp] theorem except_pure_eq_ok {ε α : Type} (a : α) :
    (pure a : Except ε α) = Except.ok a := rfl

theorem pubkey_map_mk (b w : Bool) (xs : List PublicKey) :
    List.map (AccountMeta.pubkey ∘ fun s => AccountMeta.mk s b w) xs = xs := by
  induction xs with
  | nil => rfl
  | cons x t ih => simp only [List.map_cons, Function.comp_apply, ih]

namespace SplToken

/-- The transfer encoder round-trips through the transfer decoder for
every in-range amount and any signer list. -/
theorem decode_transfer_transfer (p : TransferParams)
    (ha : p.amount < 2 ^ 64) :
    decode_transfer (transfer p) = .ok p := by
  cases p with
  | mk program_id source destination authority signers amount =>
    cases signers with
    | nil =>
      simp only [decode_transfer, transfer, addSigners,
        validate_instruction_keys, validate_instruction_type,
        layoutParse_build_transfer, Nat.mod_eq_of_lt ha, nthKey]
      simp
    | cons s ss =>
      simp only [decode_transfer, transfer, addSigners,
        validate_instruction_keys, validate_instruction_type,
        layoutParse_build_transfer, Nat.mod_eq_of_lt ha, nthKey]
      rw [if_neg (by
        simp only [List.length_append, List.length_cons, List.length_map]
        omega)]
      simp [pubkey_map_mk]

end SplToken

namespace SplToken

/-- The close-account encoder round-trips through its decoder for any
signer list. -/
theorem decode_close_account_close_account (p : CloseAccountParams) :
    decode_close_account (close_account p) = .ok p := by
  cases p with
  | mk program_id account destination owner signers =>
    cases signers with
    | nil =>
      simp only [decode_close_account, close_account, addSigners,
        validate_instruction_keys, validate_instruction_type,
        layoutParse_build_closeAccount, nthKey]
      simp
    | cons s ss =>
      simp only [decode_close_account, close_account, addSigners,
        validate_instruction_keys, validate_instruction_type,
        layoutParse_build_closeAccount, nthKey]
      rw [if_neg (by
        simp only [List.length_append, List.length_cons, List.length_map]
        omega)]
      simp [pubkey_map_mk]

/-- The initialize-account encoder round-trips through its decoder. -/
theorem decode_initialize_account_initialize_account
    (p : InitializeAccountParams) :
    decode_initialize_account (initialize_account p) = .ok p := by
  cases p with
  | mk program_id account mint owner =>
    simp only [decode_initialize_account, initialize_account,
      validate_instruction_keys, validate_instruction_type,
      layoutParse_build_initializeAccount, nthKey]
    simp

/-- The initialize-mint encoder round-trips through its decoder for
in-range decimals and well-formed 32-byte authority keys. -/
theorem decode_initialize_mint_initialize_mint (p : InitializeMintParams)
    (hd : p.decimals < 256) (hma : p.mint_authority.length = 32)
    (hfa : ∀ fa, p.freeze_authority = some fa → fa.length = 32) :
    decode_initialize_mint (initialize_mint p) = .ok p := by
  cases p with
  | mk decimals program_id mint mint_authority freeze_authority =>
    cases freeze_authority with
    | none =>
      simp only [initialize_mint]
      simp only [decode_initialize_mint, validate_instruction_keys,
        validate_instruction_type,
        layoutParse_build_initializeMint decimals 0 mint_authority ZERO_KEY
          hma (by simp [ZERO_KEY]), nthKey]
      simp [Nat.mod_eq_of_lt hd]
    | some fa =>
      have hfa32 : fa.length = 32 := hfa fa rfl
      simp only [initialize_mint]
      simp only [decode_initialize_mint, validate_instruction_keys,
        validate_instruction_type,
        layoutParse_build_initializeMint decimals 1 mint_authority fa
          hma hfa32, nthKey]
      simp [Nat.mod_eq_of_lt hd]

/-- The initialize-multisig encoder round-trips through its decoder
exactly when the `m` field equals the signer-list length and is at
least 1 (see the C1/C3 counterexamples for what happens otherwise). -/
theorem decode_initialize_multisig_initialize_multisig
    (p : InitializeMultisigParams) (hm : p.m = p.signers.length)
    (h1 : 1 ≤ p.m) (h255 : p.m ≤ 255) :
    decode_initialize_multisig (initialize_multisig p) = .ok p := by
  cases p with
  | mk program_id multisig signers m =>
    simp only at hm h1 h255
    subst hm
    have hmod : signers.length % 256 = signers.length :=
      Nat.mod_eq_of_lt (by omega)
    simp only [decode_initialize_multisig, initialize_multisig,
      layoutParse_build_initializeMultisig, hmod,
      validate_instruction_type, validate_instruction_keys,
      except_bind_ok, negSlice, nthKey]
    simp only [if_true, except_bind_ok]
    rw [if_neg (by simp only [List.length_cons, List.length_map]; omega)]
    simp only [except_bind_ok]
    rw [if_neg (by omega)]
    simp only [List.length_cons, List.length_map]
    have h2 : signers.length + 1 + 1 - signers.length = 2 := by omega
    rw [h2]
    simp [pubkey_map_mk, List.map_map]

end SplToken

/-! ## Concrete keys used by witnesses and counterexamples -/

/-- A concrete 32-byte program id. -/
def pkProg : PublicKey := List.replicate 32 9

/-- A concrete 32-byte key. -/
def pkA : PublicKey := List.replicate 32 1

/-- A concrete 32-byte key. -/
def pkB : PublicKey := List.replicate 32 2

/-- A concrete 32-byte key. -/
def pkC : PublicKey := List.replicate 32 3

/-- A concrete 32-byte key. -/
def pkD : PublicKey := List.replicate 32 4

/-- `__add_signers` only appends: the accumulated prefix factors out. -/
theorem addSigners_append (ks : List AccountMeta) (o : PublicKey)
    (ss : List PublicKey) :
    SplToken.addSigners ks o ss = ks ++ SplToken.addSigners [] o ss := by
  cases ss <;> simp [SplToken.addSigners]

/-! ## Claim C2 -/

/-- C2: for every operation taking an authority plus signer list (transfer
and close_account, through the shared helper `__add_signers`): an empty
signer list appends the authority as a single signing, non-writable
reference; a non-empty list of N signers appends the authority
non-signing and non-writable, followed by exactly the N signers in input
order, each signing and non-writable. -/
theorem C2_authority_signer_convention :
    (∀ (ks : List AccountMeta) (o : PublicKey),
      SplToken.addSigners ks o [] = ks ++ [AccountMeta.mk o true false]) ∧
    (∀ (ks : List AccountMeta) (o s : PublicKey) (ss : List PublicKey),
      SplToken.addSigners ks o (s :: ss) =
        ks ++ AccountMeta.mk o false false ::
          (s :: ss).map (fun k => AccountMeta.mk k true false)) ∧
    (∀ p : SplToken.TransferParams,
      (SplToken.transfer p).keys =
        SplToken.addSigners
          [AccountMeta.mk p.source false true,
           AccountMeta.mk p.destination false false]
          p.authority p.signers) ∧
    (∀ p : SplToken.CloseAccountParams,
      (SplToken.close_account p).keys =
        SplToken.addSigners
          [AccountMeta.mk p.account false true,
           AccountMeta.mk p.destination false true]
          p.owner p.signers) :=
  ⟨fun _ _ => rfl, fun _ _ _ _ => rfl, fun _ => rfl, fun _ => rfl⟩

/-! ## Claim C4 -/

/-- C4 counterexample: the transfer encoder marks the destination
reference non-writable (`is_writable=False` at instructions.py line 495),
so the claimed writable-destination contract fails on a concrete input. -/
theorem C4_counterexample :
    (SplToken.transfer ⟨pkProg, pkA, pkB, pkC, [], 1⟩).keys =
      [AccountMeta.mk pkA false true, AccountMeta.mk pkB false false,
       AccountMeta.mk pkC true false] ∧
    (SplToken.transfer ⟨pkProg, pkA, pkB, pkC, [], 1⟩).keys.map
        AccountMeta.is_writable ≠ [true, true, false] :=
  ⟨rfl, by decide⟩

/-- C4 amended: the account-reference lists are positionally fixed, but
transfer's destination entry is non-writable: transfer produces
[source(writable), destination(non-writable), authority-or-signers],
close_account produces [account(writable), destination(writable),
owner-or-signers], and initialize_mint produces [mint(writable),
rent-sysvar(read-only)]. -/
theorem C4_key_contract :
    (∀ p : SplToken.TransferParams,
      (SplToken.transfer p).keys =
        [AccountMeta.mk p.source false true,
         AccountMeta.mk p.destination false false] ++
        SplToken.addSigners [] p.authority p.signers) ∧
    (∀ p : SplToken.CloseAccountParams,
      (SplToken.close_account p).keys =
        [AccountMeta.mk p.account false true,
         AccountMeta.mk p.destination false true] ++
        SplToken.addSigners [] p.owner p.signers) ∧
    (∀ p : SplToken.InitializeMintParams,
      (SplToken.initialize_mint p).keys =
        [AccountMeta.mk p.mint false true,
         AccountMeta.mk SYSVAR_RENT_PUBKEY false false]) :=
  ⟨fun p => addSigners_append _ p.authority p.signers,
   fun p => addSigners_append _ p.owner p.signers,
   fun _ => rfl⟩

/-! ## Claim C1 -/

/-- C1 counterexample: a valid InitializeMultisig parameter structure
with two signer addresses and required-signer count m = 1 does not
round-trip: the decoder conflates the signer-account count with `m` and
returns only the last `m` addresses. -/
theorem C1_counterexample :
    SplToken.decode_initialize_multisig
        (SplToken.initialize_multisig ⟨pkProg, pkA, [pkB, pkC], 1⟩) =
      .ok ⟨pkProg, pkA, [pkC], 1⟩ ∧
    SplToken.decode_initialize_multisig
        (SplToken.initialize_multisig ⟨pkProg, pkA, [pkB, pkC], 1⟩) ≠
      .ok ⟨pkProg, pkA, [pkB, pkC], 1⟩ := by
  refine ⟨rfl, fun h => ?_⟩
  have h2 : (⟨pkProg, pkA, [pkC], 1⟩ : SplToken.InitializeMultisigParams) =
      ⟨pkProg, pkA, [pkB, pkC], 1⟩ :=
    Except.ok.inj ((rfl :
      SplToken.decode_initialize_multisig
          (SplToken.initialize_multisig ⟨pkProg, pkA, [pkB, pkC], 1⟩) =
        .ok ⟨pkProg, pkA, [pkC], 1⟩).symm.trans h)
  exact absurd h2 (by decide)

/-- C1 amended: decode-of-encode is the identity on valid parameters for
InitializeMint, InitializeAccount, Transfer and CloseAccount (boundary
values included); for InitializeMultisig it holds exactly on the
parameters whose `m` field equals the signer-list length, with at least
one signer. -/
theorem C1_roundtrip :
    (∀ p : SplToken.InitializeMintParams, p.decimals < 256 →
      p.mint_authority.length = 32 →
      (∀ fa, p.freeze_authority = some fa → fa.length = 32) →
      SplToken.decode_initialize_mint (SplToken.initialize_mint p) = .ok p) ∧
    (∀ p : SplToken.InitializeAccountParams,
      SplToken.decode_initialize_account (SplToken.initialize_account p) =
        .ok p) ∧
    (∀ p : SplToken.InitializeMultisigParams, p.m = p.signers.length →
      1 ≤ p.m → p.m ≤ 255 →
      SplToken.decode_initialize_multisig (SplToken.initialize_multisig p) =
        .ok p) ∧
    (∀ p : SplToken.TransferParams, p.amount < 2 ^ 64 →
      SplToken.decode_transfer (SplToken.transfer p) = .ok p) ∧
    (∀ p : SplToken.CloseAccountParams,
      SplToken.decode_close_account (SplToken.close_account p) = .ok p) :=
  ⟨SplToken.decode_initialize_mint_initialize_mint,
   SplToken.decode_initialize_account_initialize_account,
   SplToken.decode_initialize_multisig_initialize_multisig,
   SplToken.decode_transfer_transfer,
   SplToken.decode_close_account_close_account⟩

/-- C1 witness: the round-trip theorem applied at concrete boundary
inputs (decimals 255 with a present freeze authority; a 2-of-2 multisig;
a transfer of the maximal 64-bit amount with no signers; a transfer of
amount 0 with two signers). -/
theorem C1_witness :
    SplToken.decode_initialize_mint
        (SplToken.initialize_mint ⟨255, pkProg, pkA, pkB, some pkC⟩) =
      .ok ⟨255, pkProg, pkA, pkB, some pkC⟩ ∧
    SplToken.decode_initialize_multisig
        (SplToken.initialize_multisig ⟨pkProg, pkA, [pkB, pkC], 2⟩) =
      .ok ⟨pkProg, pkA, [pkB, pkC], 2⟩ ∧
    SplToken.decode_transfer
        (SplToken.transfer ⟨pkProg, pkA, pkB, pkC, [], 2 ^ 64 - 1⟩) =
      .ok ⟨pkProg, pkA, pkB, pkC, [], 2 ^ 64 - 1⟩ ∧
    SplToken.decode_transfer
        (SplToken.transfer ⟨pkProg, pkA, pkB, pkC, [pkD, pkA], 0⟩) =
      .ok ⟨pkProg, pkA, pkB, pkC, [pkD, pkA], 0⟩ :=
  ⟨C1_roundtrip.1 _ (by decide) (by decide)
      (fun fa h => (Option.some.inj h) ▸ (by decide : pkC.length = 32)),
   C1_roundtrip.2.2.1 _ (by decide) (by decide) (by decide),
   C1_roundtrip.2.2.2.1 _ (by decide),
   C1_roundtrip.2.2.2.1 _ (by decide)⟩

/-! ## Claim C3 -/

/-- Closed form of the multisig decoder once the data buffer is known to
parse as InitializeMultisig with field `m = k`. -/
theorem decode_initialize_multisig_eq (ix : TransactionInstruction) (k : Nat)
    (h : layoutParse ix.data =
      .ok ⟨.InitializeMultisig, .initializeMultisig k⟩) :
    SplToken.decode_initialize_multisig ix =
      if ix.keys.length < 2 + k then
        .error (.invalidAccountCount ix.keys.length (2 + k))
      else
        .ok ⟨ix.program_id, nthKey ix 0,
             (negSlice ix.keys k).map AccountMeta.pubkey, k⟩ := by
  simp only [SplToken.decode_initialize_multisig, h, except_bind_ok,
    validate_instruction_type, validate_instruction_keys]
  simp only [if_true, except_bind_ok]
  by_cases hlen : ix.keys.length < 2 + k
  · rw [if_pos hlen, if_pos hlen]
    rfl
  · rw [if_neg hlen, if_neg hlen]
    rfl

/-- C3 counterexample: at `k = 0` the claim fails. A well-formed
InitializeMultisig instruction with data field `m = 0` and two account
references decodes successfully, but the returned signer list is the
*entire* account list (Python's `keys[-0:]` slice is the whole list),
not the last 0 references (i.e. not the empty list). -/
theorem C3_counterexample :
    SplToken.decode_initialize_multisig
        ⟨[AccountMeta.mk pkA false true, AccountMeta.mk pkB false false],
         pkProg, [2, 0]⟩ =
      .ok ⟨pkProg, pkA, [pkA, pkB], 0⟩ ∧
    [pkA, pkB] ≠ ([] : List PublicKey) :=
  ⟨rfl, by decide⟩

/-- C3 amended: for every k ≥ 1 and every instruction whose data parses
as InitializeMultisig with field `m = k`, decoding succeeds exactly when
the account list has length ≥ 2 + k, in which case the signer list is
the last k addresses in order and the returned `m` is k; the field parse
of `m` precedes the key-count check (an unparseable or wrong-kind buffer
is reported even with too few keys, and the key-count error's minimum
2 + k is computed from the parsed field); for k = 0, a successful decode
returns the entire key list as signers rather than the last 0. -/
theorem C3_multisig_decode :
    (∀ (ix : TransactionInstruction) (k : Nat),
      layoutParse ix.data =
        .ok ⟨.InitializeMultisig, .initializeMultisig k⟩ →
      1 ≤ k →
      ((∃ p, SplToken.decode_initialize_multisig ix = .ok p) ↔
        2 + k ≤ ix.keys.length)) ∧
    (∀ (ix : TransactionInstruction) (k : Nat)
        (p : SplToken.InitializeMultisigParams),
      layoutParse ix.data =
        .ok ⟨.InitializeMultisig, .initializeMultisig k⟩ →
      1 ≤ k → SplToken.decode_initialize_multisig ix = .ok p →
      p.signers =
        (ix.keys.drop (ix.keys.length - k)).map AccountMeta.pubkey ∧
      p.m = k) ∧
    (∀ (ix : TransactionInstruction) (k : Nat),
      layoutParse ix.data =
        .ok ⟨.InitializeMultisig, .initializeMultisig k⟩ →
      ix.keys.length < 2 + k →
      SplToken.decode_initialize_multisig ix =
        .error (.invalidAccountCount ix.keys.length (2 + k))) ∧
    (∀ (ix : TransactionInstruction) (e : TokenError),
      layoutParse ix.data = .error e →
      SplToken.decode_initialize_multisig ix = .error e) ∧
    (∀ ix : TransactionInstruction,
      layoutParse ix.data =
        .ok ⟨.InitializeMultisig, .initializeMultisig 0⟩ →
      2 ≤ ix.keys.length →
      SplToken.decode_initialize_multisig ix =
        .ok ⟨ix.program_id, nthKey ix 0,
             ix.keys.map AccountMeta.pubkey, 0⟩) := by
  refine ⟨?_, ?_, ?_, ?_, ?_⟩
  · intro ix k h _
    rw [decode_initialize_multisig_eq ix k h]
    by_cases hlen : ix.keys.length < 2 + k
    · rw [if_pos hlen]
      constructor
      · rintro ⟨p, hp⟩
        exact absurd hp (by intro hc; cases hc)
      · omega
    · rw [if_neg hlen]
      exact ⟨fun _ => by omega, fun _ => ⟨_, rfl⟩⟩
  · intro ix k p h hk hp
    rw [decode_initialize_multisig_eq ix k h] at hp
    by_cases hlen : ix.keys.length < 2 + k
    · rw [if_pos hlen] at hp
      cases hp
    · rw [if_neg hlen] at hp
      have := Except.ok.inj hp
      subst this
      refine ⟨?_, rfl⟩
      simp only [negSlice, if_neg (by omega : ¬ k = 0)]
  · intro ix k h hlen
    rw [decode_initialize_multisig_eq ix k h, if_pos hlen]
  · intro ix e h
    simp only [SplToken.decode_initialize_multisig, h, except_bind_error]
  · intro ix h hlen
    rw [decode_initialize_multisig_eq ix 0 h,
      if_neg (by omega : ¬ ix.keys.length < 2 + 0)]
    simp [negSlice]

/-- C3 witness: the amended theorem applied to a concrete 1-signer
multisig instruction: with 3 account references decoding succeeds and
returns exactly the last address; with only 2 it fails with the
data-derived minimum 2 + 1; a wrong-kind buffer fails on its parse even
with an empty key list. -/
theorem C3_witness :
    ((∃ p, SplToken.decode_initialize_multisig
        ⟨[AccountMeta.mk pkA false true, AccountMeta.mk pkB false false,
          AccountMeta.mk pkC false false], pkProg, [2, 1]⟩ = .ok p) ↔
      2 + 1 ≤ 3) ∧
    SplToken.decode_initialize_multisig
        ⟨[AccountMeta.mk pkA false true, AccountMeta.mk pkB false false],
         pkProg, [2, 1]⟩ =
      .error (.invalidAccountCount 2 (2 + 1)) :=
  ⟨by
    have h := C3_multisig_decode.1
      ⟨[AccountMeta.mk pkA false true, AccountMeta.mk pkB false false,
        AccountMeta.mk pkC false false], pkProg, [2, 1]⟩ 1 rfl (by decide)
    exact h,
   C3_multisig_decode.2.2.1
     ⟨[AccountMeta.mk pkA false true, AccountMeta.mk pkB false false],
      pkProg, [2, 1]⟩ 1 rfl (by decide)⟩

/-! ## Claim C5 -/

/-- C5: every implemented encoder emits its kind's fixed discriminant as
the first data byte (second half of the claim, which holds), but
`decode_instruction_layout` does not dispatch on that single byte: it
reads the first four bytes little-endian, so the very buffer produced by
the sibling transfer encoder for amount 1 — first byte 3, a valid
discriminant with a registered layout — is rejected as unknown (the
four-byte value is 259), while it dispatches on byte 0 only when bytes
1-3 happen to be zero. -/
theorem C5_discriminant_dispatch :
    (SplToken.transfer ⟨pkProg, pkA, pkB, pkC, [], 1⟩).data =
      [3, 1, 0, 0, 0, 0, 0, 0, 0] ∧
    (SplToken.transfer ⟨pkProg, pkA, pkB, pkC, [], 1⟩).data.headI = 3 ∧
    TokenProgram.decode_instruction_layout
        ⟨[], pkProg, (SplToken.transfer ⟨pkProg, pkA, pkB, pkC, [], 1⟩).data⟩ =
      .error .unknownInstruction ∧
    TokenProgram.TOKEN_INSTRUCTION_LAYOUTS[3]? =
      some ⟨3, "Q"⟩ ∧
    TokenProgram.decode_instruction_layout ⟨[], pkProg, [3, 0, 0, 0, 99]⟩ =
      .ok ⟨3, "Q"⟩ ∧
    (∀ p : SplToken.InitializeMintParams,
      (SplToken.initialize_mint p).data.headI = 0) ∧
    (∀ p : SplToken.InitializeAccountParams,
      (SplToken.initialize_account p).data.headI = 1) ∧
    (∀ p : SplToken.InitializeMultisigParams,
      (SplToken.initialize_multisig p).data.headI = 2) ∧
    (∀ p : SplToken.TransferParams,
      (SplToken.transfer p).data.headI = 3) ∧
    (∀ p : SplToken.CloseAccountParams,
      (SplToken.close_account p).data.headI = 9) :=
  ⟨rfl, rfl, rfl, rfl, rfl, fun _ => rfl, fun _ => rfl, fun _ => rfl,
   fun _ => rfl, fun _ => rfl⟩

/-! ## Claim C6 -/

/-- C6 counterexample: the discriminant check is not decode's first
step. Decoding with the transfer decoder an instruction whose data
carries discriminant 9 (CloseAccount) and whose account list is empty
fails with `InvalidAccountCount`, not with the claimed
`WrongInstructionType`: the key-count check runs first. -/
theorem C6_counterexample :
    SplToken.decode_transfer ⟨[], pkProg, [9]⟩ =
      .error (.invalidAccountCount 0 3) ∧
    SplToken.decode_transfer ⟨[], pkProg, [9]⟩ ≠
      .error (.wrongInstructionType 3 9) := by
  refine ⟨rfl, fun h => ?_⟩
  have h2 : (TokenError.invalidAccountCount 0 3) =
      (TokenError.wrongInstructionType 3 9) :=
    Except.error.inj ((rfl : SplToken.decode_transfer ⟨[], pkProg, [9]⟩ =
      .error (.invalidAccountCount 0 3)).symm.trans h)
  exact absurd h2 (by decide)

/-- C6 amended: in every implemented decoder other than
InitializeMultisig the key-count check precedes the discriminant check;
once the account list is long enough, a buffer parsing as a different
kind fails with `WrongInstructionType` carrying the expected and actual
discriminants, while a too-short account list fails with
`InvalidAccountCount` even if the discriminant is also wrong. -/
theorem C6_wrong_type_after_key_check :
    (∀ (ix : TransactionInstruction) (ty : InstructionType)
        (args : InstructionArgs),
      2 ≤ ix.keys.length → layoutParse ix.data = .ok ⟨ty, args⟩ →
      ty ≠ .InitializeMint →
      SplToken.decode_initialize_mint ix =
        .error (.wrongInstructionType 0 ty.idx)) ∧
    (∀ (ix : TransactionInstruction) (ty : InstructionType)
        (args : InstructionArgs),
      4 ≤ ix.keys.length → layoutParse ix.data = .ok ⟨ty, args⟩ →
      ty ≠ .InitializeAccount →
      SplToken.decode_initialize_account ix =
        .error (.wrongInstructionType 1 ty.idx)) ∧
    (∀ (ix : TransactionInstruction) (ty : InstructionType)
        (args : InstructionArgs),
      3 ≤ ix.keys.length → layoutParse ix.data = .ok ⟨ty, args⟩ →
      ty ≠ .Transfer →
      SplToken.decode_transfer ix =
        .error (.wrongInstructionType 3 ty.idx)) ∧
    (∀ (ix : TransactionInstruction) (ty : InstructionType)
        (args : InstructionArgs),
      3 ≤ ix.keys.length → layoutParse ix.data = .ok ⟨ty, args⟩ →
      ty ≠ .CloseAccount →
      SplToken.decode_close_account ix =
        .error (.wrongInstructionType 9 ty.idx)) ∧
    (∀ ix : TransactionInstruction, ix.keys.length < 2 →
      SplToken.decode_initialize_mint ix =
        .error (.invalidAccountCount ix.keys.length 2)) ∧
    (∀ ix : TransactionInstruction, ix.keys.length < 4 →
      SplToken.decode_initialize_account ix =
        .error (.invalidAccountCount ix.keys.length 4)) ∧
    (∀ ix : TransactionInstruction, ix.keys.length < 3 →
      SplToken.decode_transfer ix =
        .error (.invalidAccountCount ix.keys.length 3)) ∧
    (∀ ix : TransactionInstruction, ix.keys.length < 3 →
      SplToken.decode_close_account ix =
        .error (.invalidAccountCount ix.keys.length 3)) := by
  refine ⟨?_, ?_, ?_, ?_, ?_, ?_, ?_, ?_⟩
  · intro ix ty args hlen h hty
    simp only [SplToken.decode_initialize_mint, validate_instruction_keys,
      if_neg (by omega : ¬ ix.keys.length < 2), except_bind_ok, h,
      validate_instruction_type, if_neg hty, except_bind_error]
    rfl
  · intro ix ty args hlen h hty
    simp only [SplToken.decode_initialize_account, validate_instruction_keys,
      if_neg (by omega : ¬ ix.keys.length < 4), except_bind_ok, h,
      validate_instruction_type, if_neg hty, except_bind_error]
    rfl
  · intro ix ty args hlen h hty
    simp only [SplToken.decode_transfer, validate_instruction_keys,
      if_neg (by omega : ¬ ix.keys.length < 3), except_bind_ok, h,
      validate_instruction_type, if_neg hty, except_bind_error]
    rfl
  · intro ix ty args hlen h hty
    simp only [SplToken.decode_close_account, validate_instruction_keys,
      if_neg (by omega : ¬ ix.keys.length < 3), except_bind_ok, h,
      validate_instruction_type, if_neg hty, except_bind_error]
    rfl
  · intro ix hlen
    simp only [SplToken.decode_initialize_mint, validate_instruction_keys,
      if_pos hlen, except_bind_error]
  · intro ix hlen
    simp only [SplToken.decode_initialize_account, validate_instruction_keys,
      if_pos hlen, except_bind_error]
  · intro ix hlen
    simp only [SplToken.decode_transfer, validate_instruction_keys,
      if_pos hlen, except_bind_error]
  · intro ix hlen
    simp only [SplToken.decode_close_account, validate_instruction_keys,
      if_pos hlen, except_bind_error]

/-- C6 witness: the amended theorem applied to concrete instructions: a
CloseAccount-discriminant buffer with three account references is
rejected by the transfer decoder with expected 3, actual 9; and each of
the four decoders, fed a buffer whose discriminant is also wrong but
with a too-short account list, reports the account-count error
instead. -/
theorem C6_witness :
    SplToken.decode_transfer
        ⟨[AccountMeta.mk pkA false true, AccountMeta.mk pkB false false,
          AccountMeta.mk pkC true false], pkProg, [9]⟩ =
      .error (.wrongInstructionType 3 9) ∧
    SplToken.decode_initialize_mint ⟨[], pkProg, [9]⟩ =
      .error (.invalidAccountCount 0 2) ∧
    SplToken.decode_initialize_account ⟨[], pkProg, [9]⟩ =
      .error (.invalidAccountCount 0 4) ∧
    SplToken.decode_transfer ⟨[], pkProg, [9]⟩ =
      .error (.invalidAccountCount 0 3) ∧
    SplToken.decode_close_account
        ⟨[], pkProg, [3, 1, 0, 0, 0, 0, 0, 0, 0]⟩ =
      .error (.invalidAccountCount 0 3) :=
  ⟨C6_wrong_type_after_key_check.2.2.1
      ⟨[AccountMeta.mk pkA false true, AccountMeta.mk pkB false false,
        AccountMeta.mk pkC true false], pkProg, [9]⟩
      .CloseAccount .empty (by decide) rfl (by decide),
   C6_wrong_type_after_key_check.2.2.2.2.1 ⟨[], pkProg, [9]⟩ (by decide),
   C6_wrong_type_after_key_check.2.2.2.2.2.1 ⟨[], pkProg, [9]⟩ (by decide),
   C6_wrong_type_after_key_check.2.2.2.2.2.2.1 ⟨[], pkProg, [9]⟩ (by decide),
   C6_wrong_type_after_key_check.2.2.2.2.2.2.2
     ⟨[], pkProg, [3, 1, 0, 0, 0, 0, 0, 0, 0]⟩ (by decide)⟩

/-! ## Claim C7 -/

/-- C7: encoding InitializeMint with no freeze authority writes a 4-byte
zero option flag followed by 32 zero bytes in the optional-field slot;
any buffer parsing as InitializeMint with a zero option flag decodes to
freeze_authority = none regardless of the trailing 32 bytes; a present
freeze authority is encoded with flag 1 and round-trips byte-exactly. -/
theorem C7_freeze_authority_option :
    (∀ p : SplToken.InitializeMintParams, p.freeze_authority = none →
      (SplToken.initialize_mint p).data =
        0 :: p.decimals % 256 :: p.mint_authority ++
          ([0, 0, 0, 0] ++ List.replicate 32 0)) ∧
    (∀ (ix : TransactionInstruction) (d : Nat) (ma fa : List Nat),
      layoutParse ix.data = .ok ⟨.InitializeMint, .initializeMint d ma 0 fa⟩ →
      2 ≤ ix.keys.length →
      SplToken.decode_initialize_mint ix =
        .ok ⟨d, ix.program_id, nthKey ix 0, ma, none⟩) ∧
    (∀ (p : SplToken.InitializeMintParams) (fa : PublicKey),
      p.freeze_authority = some fa →
      (SplToken.initialize_mint p).data =
        0 :: p.decimals % 256 :: p.mint_authority ++ ([1, 0, 0, 0] ++ fa)) ∧
    (∀ (p : SplToken.InitializeMintParams) (fa : PublicKey),
      p.freeze_authority = some fa → fa.length = 32 →
      p.mint_authority.length = 32 → p.decimals < 256 →
      SplToken.decode_initialize_mint (SplToken.initialize_mint p) =
        .ok p) := by
  refine ⟨?_, ?_, ?_, ?_⟩
  · intro p hf
    simp [SplToken.initialize_mint, hf, layoutBuild, buildArgs,
      InstructionType.idx, u32le, ZERO_KEY]
  · intro ix d ma fa h hlen
    simp only [SplToken.decode_initialize_mint, validate_instruction_keys,
      if_neg (by omega : ¬ ix.keys.length < 2), except_bind_ok, h,
      validate_instruction_type]
    simp only [if_true, except_bind_ok]
    rfl
  · intro p fa hf
    simp [SplToken.initialize_mint, hf, layoutBuild, buildArgs,
      InstructionType.idx, u32le]
  · intro p fa hf hfa hma hd
    exact SplToken.decode_initialize_mint_initialize_mint p hd hma
      (fun fa' h' =>
        (Option.some.inj ((hf.symm.trans h'))) ▸ hfa)

/-- C7 witness: the option-encoding theorem applied at concrete inputs:
an absent freeze authority yields the zero flag and zero-filled slot; a
buffer with a zero flag but arbitrary nonzero trailing bytes still
decodes to none; a present authority round-trips. -/
theorem C7_witness :
    (SplToken.initialize_mint ⟨3, pkProg, pkA, pkB, none⟩).data =
      0 :: 3 % 256 :: pkB ++ ([0, 0, 0, 0] ++ List.replicate 32 0) ∧
    SplToken.decode_initialize_mint
        ⟨[AccountMeta.mk pkA false true,
          AccountMeta.mk SYSVAR_RENT_PUBKEY false false], pkProg,
         0 :: 3 :: pkB ++ ([0, 0, 0, 0] ++ pkD)⟩ =
      .ok ⟨3, pkProg, pkA, pkB, none⟩ ∧
    SplToken.decode_initialize_mint
        (SplToken.initialize_mint ⟨3, pkProg, pkA, pkB, some pkC⟩) =
      .ok ⟨3, pkProg, pkA, pkB, some pkC⟩ := by
  refine ⟨C7_freeze_authority_option.1 ⟨3, pkProg, pkA, pkB, none⟩ rfl, ?_, ?_⟩
  · have h := C7_freeze_authority_option.2.1
      ⟨[AccountMeta.mk pkA false true,
        AccountMeta.mk SYSVAR_RENT_PUBKEY false false], pkProg,
       0 :: 3 :: pkB ++ ([0, 0, 0, 0] ++ pkD)⟩ 3 pkB pkD (by decide)
      (by decide)
    exact h.trans (by decide)
  · exact C7_freeze_authority_option.2.2.2 ⟨3, pkProg, pkA, pkB, some pkC⟩
      pkC rfl (by decide) (by decide) (by decide)

/-! ## Claim C8 -/

/-- C8: every encode or decode entry whose logic is absent from this
build fails unconditionally with its distinct `NotImplementedError`
message and never returns a parameter structure or instruction. -/
theorem C8_unsupported_operations :
    (∀ p, SplToken.approve p =
      .error (.notImplementedError "approve not implemented")) ∧
    (∀ p, SplToken.revoke p =
      .error (.notImplementedError "revoke not implemented")) ∧
    (∀ p, SplToken.set_authority p =
      .error (.notImplementedError "set_authority not implemented")) ∧
    (∀ p, SplToken.mint_to p =
      .error (.notImplementedError "mint_to not implemented")) ∧
    (∀ p, SplToken.burn p =
      .error (.notImplementedError "burn not implemented")) ∧
    (∀ p, SplToken.freeze_account p =
      .error (.notImplementedError "freeze_account not implemented")) ∧
    (∀ p, SplToken.thaw_account p =
      .error (.notImplementedError "thaw_account not implemented")) ∧
    (∀ p, SplToken.transfer2 p =
      .error (.notImplementedError "transfer2 not implemented")) ∧
    (∀ p, SplToken.approve2 p =
      .error (.notImplementedError "approve2 not implemented")) ∧
    (∀ p, SplToken.mint_to2 p =
      .error (.notImplementedError "mint_to2 not implemented")) ∧
    (∀ p, SplToken.burn2 p =
      .error (.notImplementedError "burn2 not implemented")) ∧
    (∀ ix, SplToken.decode_approve ix =
      .error (.notImplementedError "decode_token_approve not implemented")) ∧
    (∀ ix, SplToken.decode_revoke ix =
      .error (.notImplementedError "decode_token_revoke not implemented")) ∧
    (∀ ix, SplToken.decode_set_authority ix =
      .error (.notImplementedError "decode_set_authority not implemented")) ∧
    (∀ ix, SplToken.decode_mint_to ix =
      .error (.notImplementedError "decode_mint_to not implemented")) ∧
    (∀ ix, SplToken.decode_burn ix =
      .error (.notImplementedError "decode_burn not implemented")) ∧
    (∀ ix, SplToken.decode_thaw_account ix =
      .error (.notImplementedError "decode_thaw_account not implemented")) ∧
    (∀ ix, SplToken.decode_transfer2 ix =
      .error (.notImplementedError "decode_transfer2 not implemented")) ∧
    (∀ ix, SplToken.decode_approve2 ix =
      .error (.notImplementedError "decode_approve2 not implemented")) ∧
    (∀ ix, SplToken.decode_mint_to2 ix =
      .error (.notImplementedError "decode_mint_to2 not implemented")) ∧
    (∀ ix, SplToken.decode_burn2 ix =
      .error (.notImplementedError "decode_burn2 not implemented")) :=
  ⟨fun _ => rfl, fun _ => rfl, fun _ => rfl, fun _ => rfl, fun _ => rfl,
   fun _ => rfl, fun _ => rfl, fun _ => rfl, fun _ => rfl, fun _ => rfl,
   fun _ => rfl, fun _ => rfl, fun _ => rfl, fun _ => rfl, fun _ => rfl,
   fun _ => rfl, fun _ => rfl, fun _ => rfl, fun _ => rfl, fun _ => rfl,
   fun _ => rfl⟩

/-! ## Claim C9 -/

/-- C9: the transfer decoder requires at least 3 account references
before producing any result; in particular an instruction carrying only
the source and destination references (missing the authority) fails
with `InvalidAccountCount` reporting found 2, expected 3. -/
theorem C9_transfer_min_keys :
    (∀ ix : TransactionInstruction, ix.keys.length = 2 →
      SplToken.decode_transfer ix = .error (.invalidAccountCount 2 3)) ∧
    (∀ (ix : TransactionInstruction) (p : SplToken.TransferParams),
      SplToken.decode_transfer ix = .ok p → 3 ≤ ix.keys.length) := by
  constructor
  · intro ix h
    simp only [SplToken.decode_transfer, validate_instruction_keys, h,
      if_pos (by omega : (2:Nat) < 3), except_bind_error]
  · intro ix p h
    by_cases hlen : ix.keys.length < 3
    · exfalso
      simp only [SplToken.decode_transfer, validate_instruction_keys,
        if_pos hlen, except_bind_error] at h
      cases h
    · omega

/-- C9 witness: the theorem applied to a concrete transfer instruction
carrying only source and destination references. -/
theorem C9_witness :
    SplToken.decode_transfer
        ⟨[AccountMeta.mk pkA false true, AccountMeta.mk pkB false false],
         pkProg, [3, 1, 0, 0, 0, 0, 0, 0, 0]⟩ =
      .error (.invalidAccountCount 2 3) :=
  C9_transfer_min_keys.1
    ⟨[AccountMeta.mk pkA false true, AccountMeta.mk pkB false false],
     pkProg, [3, 1, 0, 0, 0, 0, 0, 0, 0]⟩ rfl

/-! ## Claim C10 -/

/-- `nthKey` depends on the account references only through their
addresses. -/
theorem nthKey_eq_of_pubkeys {i1 i2 : TransactionInstruction}
    (h : i1.keys.map AccountMeta.pubkey = i2.keys.map AccountMeta.pubkey)
    (i : Nat) : nthKey i1 i = nthKey i2 i := by
  simp only [nthKey, ← List.getElem?_map, h]

/-- Dropped-suffix pubkeys depend only on the addresses. -/
theorem drop_map_eq_of_pubkeys {i1 i2 : TransactionInstruction}
    (h : i1.keys.map AccountMeta.pubkey = i2.keys.map AccountMeta.pubkey)
    (n : Nat) :
    (i1.keys.drop n).map AccountMeta.pubkey =
      (i2.keys.drop n).map AccountMeta.pubkey := by
  rw [List.map_drop, List.map_drop, h]

/-- The Python negative-slice of pubkeys depends only on the addresses. -/
theorem negSlice_map_eq_of_pubkeys {i1 i2 : TransactionInstruction}
    (h : i1.keys.map AccountMeta.pubkey = i2.keys.map AccountMeta.pubkey)
    (m : Nat) :
    (negSlice i1.keys m).map AccountMeta.pubkey =
      (negSlice i2.keys m).map AccountMeta.pubkey := by
  have hlen : i1.keys.length = i2.keys.length := by
    have := congrArg List.length h
    simpa using this
  by_cases hm : m = 0
  · simp only [negSlice, if_pos hm, h]
  · simp only [negSlice, if_neg hm, List.map_drop, hlen, h]

/-- C10: every implemented decoder's result depends only on the data
bytes, the program id and the account references' addresses: two
instructions differing only in is_signer / is_writable flags decode
identically under all five implemented decoders. -/
theorem C10_flag_independence :
    ∀ i1 i2 : TransactionInstruction, i1.data = i2.data →
      i1.program_id = i2.program_id →
      i1.keys.map AccountMeta.pubkey = i2.keys.map AccountMeta.pubkey →
      SplToken.decode_initialize_mint i1 = SplToken.decode_initialize_mint i2 ∧
      SplToken.decode_initialize_account i1 =
        SplToken.decode_initialize_account i2 ∧
      SplToken.decode_initialize_multisig i1 =
        SplToken.decode_initialize_multisig i2 ∧
      SplToken.decode_transfer i1 = SplToken.decode_transfer i2 ∧
      SplToken.decode_close_account i1 = SplToken.decode_close_account i2 := by
  intro i1 i2 hdata hpid hpks
  have hlen : i1.keys.length = i2.keys.length := by
    have := congrArg List.length hpks
    simpa using this
  have hnth : ∀ i, nthKey i1 i = nthKey i2 i := nthKey_eq_of_pubkeys hpks
  have hdrop := drop_map_eq_of_pubkeys hpks
  have hns := negSlice_map_eq_of_pubkeys hpks
  refine ⟨?_, ?_, ?_, ?_, ?_⟩
  · simp only [SplToken.decode_initialize_mint, validate_instruction_keys,
      hlen, hdata, hpid, hnth]
  · simp only [SplToken.decode_initialize_account, validate_instruction_keys,
      hlen, hdata, hpid, hnth]
  · simp only [SplToken.decode_initialize_multisig,
      validate_instruction_keys, hlen, hdata, hpid, hnth, hns]
  · simp only [SplToken.decode_transfer, validate_instruction_keys, hlen,
      hdata, hpid, hnth, hdrop]
  · simp only [SplToken.decode_close_account, validate_instruction_keys,
      hlen, hdata, hpid, hnth, hdrop]

/-- C10 witness: the independence theorem applied to two concrete
transfer instructions with identical data and addresses but opposite
signer/writable flags on every reference. -/
theorem C10_witness :
    SplToken.decode_transfer
        ⟨[AccountMeta.mk pkA false true, AccountMeta.mk pkB false false,
          AccountMeta.mk pkC true false], pkProg,
         [3, 1, 0, 0, 0, 0, 0, 0, 0]⟩ =
      SplToken.decode_transfer
        ⟨[AccountMeta.mk pkA true false, AccountMeta.mk pkB true true,
          AccountMeta.mk pkC false true], pkProg,
         [3, 1, 0, 0, 0, 0, 0, 0, 0]⟩ :=
  (C10_flag_independence
    ⟨[AccountMeta.mk pkA false true, AccountMeta.mk pkB false false,
      AccountMeta.mk pkC true false], pkProg, [3, 1, 0, 0, 0, 0, 0, 0, 0]⟩
    ⟨[AccountMeta.mk pkA true false, AccountMeta.mk pkB true true,
      AccountMeta.mk pkC false true], pkProg, [3, 1, 0, 0, 0, 0, 0, 0, 0]⟩
    rfl rfl rfl).2.2.2.1
